import Mathlib

/-!
# Verification of the ESP32 vending-machine MQTT controller

Shallow embedding of `src/main.py` (the authoritative variant): the MQTT
command dispatcher `sub_cb`, the OTA self-update engine
`perform_ota_update`, the heartbeat publisher `publish_health_status`
and one tick of the supervisor loop in `main`.

Side effects (MQTT publishes, pin toggles, sleeps, file operations,
hardware resets) are recorded as an explicit trace of `Event`s.
Fallible external calls (publishes, pin drive, HTTP download, the final
rename) are resolved by oracle fields in environment records, so each
theorem quantifies over every fault pattern it mentions.  File state is
the triple of the three script paths the update engine touches.
-/

namespace QrEsp32

/-- `vending/machine/{MACHINE_ID}/trigger` (main.py line 440). -/
def MQTT_TOPIC_SUB (mid : String) : String := "vending/machine/" ++ mid ++ "/trigger"

/-- `vending/machine/{MACHINE_ID}/status` (main.py line 441). -/
def MQTT_TOPIC_PUB (mid : String) : String := "vending/machine/" ++ mid ++ "/status"

/-- `vending/machine/{MACHINE_ID}/confirm` (main.py line 442). -/
def MQTT_TOPIC_CONFIRM (mid : String) : String := "vending/machine/" ++ mid ++ "/confirm"

/-- `vending/machine/{MACHINE_ID}/health` (main.py line 443). -/
def MQTT_TOPIC_HEALTH (mid : String) : String := "vending/machine/" ++ mid ++ "/health"

/-- `HEALTH_CHECK_INTERVAL = 60` (main.py line 86). -/
def HEALTH_CHECK_INTERVAL : Nat := 60

/-- `temp_script_path = 'main_next.py'` (main.py line 189): the staging slot. -/
def temp_script_path : String := "main_next.py"

/-- `old_script_path = 'main_old.py'` (main.py line 190): the backup slot. -/
def old_script_path : String := "main_old.py"

/-- `current_script_path = 'main.py'` (main.py line 191): the live slot. -/
def current_script_path : String := "main.py"

/-- Structured rendering of every JSON payload the program publishes. -/
inductive OutMsg
  | resetting
  | otaError (err : String)
  | otaStarting (url : String)
  | otaSuccessRebooting
  | otaFinalizeFailed (err : String)
  | otaDownloadFailed
  | confirmMsg (qrcode_id : String) (status : String)
  | deviceStatus (last_action_status : String) (last_qrcode_id : Option String)
      (pulses_requested : Option Int) (pulses_generated : Int) (error : String)
  | payloadError (err : String)
  | processingError (err : String)
  | health (uptime_s mem_free_b mem_alloc_b : Nat)
  deriving DecidableEq, Repr

/-- One observable side effect.  `pub` records an attempted MQTT publish
together with whether the underlying `client.publish` succeeded (a raising
publish is always caught by the surrounding `try`). -/
inductive Event
  | pub (topic : String) (msg : OutMsg) (ok : Bool)
  | pinOn
  | pinOff
  | sleepTenths (tenths : Nat)
  | fwrite (path : String)
  | fremove (path : String) (ok : Bool)
  | frename (src dst : String) (ok : Bool)
  | connectAttempt (ok : Bool)
  | subscribeAttempt (ok : Bool)
  | machineReset
  deriving DecidableEq, Repr

/-- The contents of the three file slots the OTA engine touches:
`main.py` (live), `main_old.py` (backup), `main_next.py` (staging).
`none` means the file does not exist. -/
structure FS where
  live : Option String
  backup : Option String
  staged : Option String
  deriving DecidableEq, Repr

/-- Outcome of `urequests.get(url)` plus the body read (main.py lines 205-222). -/
inductive DownloadResult
  | ok (content : String)
  | badStatus (code : Nat)
  | netError (err : String)
  deriving DecidableEq, Repr

/-- Fault oracle for one OTA attempt: the download outcome, whether each
`client.publish` succeeds, and whether the final
`uos.rename(temp_script_path, current_script_path)` raises an `OSError`
unrelated to a missing source (the only statement of the `try` block at
main.py lines 234-263 that can raise in this model). -/
structure OtaEnv where
  download : DownloadResult
  startPubOk : Bool
  successPubOk : Bool
  downloadFailPubOk : Bool
  finalizePubOk : Bool
  finalRenameRaises : Bool

/-- Where the pin-drive cycle `i` raises, if anywhere: at `flash.on()`
(before any event of the cycle) or at `flash.off()` (after the on phase).
`none` means cycle `i` completes. -/
inductive PulseFault
  | onRaises
  | offRaises
  deriving DecidableEq, Repr

/-- Fault oracle for one `sub_cb` invocation. -/
structure Env where
  resetPubOk : Bool
  errPubOk : Bool
  pulseFault : Nat → Option PulseFault
  confirmPubOk : Bool
  statusPubOk : Bool
  ota : OtaEnv

/-- A decoded inbound message on the command topic.  `badJson` is a
`ujson.loads` failure (a `ValueError`, main.py line 390); `nonObject` is a
structurally non-dict payload whose `.get` raises (caught at line 399);
`payload` is a decoded object. -/
structure Payload where
  action : Option String
  url : Option String
  qrcode_id : Option String
  pulsesValid : Bool
  pulses : Int

inductive InMsg
  | badJson (err : String)
  | nonObject (err : String)
  | payload (p : Payload)

/-- The `for i in range(num_pulses)` loop of main.py lines 340-344,
starting at cycle index `i` with `k` cycles remaining.  Returns the pin
trace and whether the whole loop completed without raising.  A raise
aborts the loop (the surrounding `try` at line 339 catches it). -/
def runPulsesAux (fault : Nat → Option PulseFault) : Nat → Nat → List Event × Bool
  | _, 0 => ([], true)
  | i, k + 1 =>
    match fault i with
    | some .onRaises => ([], false)
    | some .offRaises => ([.pinOn, .sleepTenths 2], false)
    | none =>
      let r := runPulsesAux fault (i + 1) k
      (.pinOn :: .sleepTenths 2 :: .pinOff :: .sleepTenths 3 :: r.1, r.2)

/-- The actuation driver: `n` on/off cycles (0.2s on, 0.3s off). -/
def runPulses (fault : Nat → Option PulseFault) (n : Nat) : List Event × Bool :=
  runPulsesAux fault 0 n

/-- `perform_ota_update(url)` (main.py lines 182-278).  Returns the event
trace and the resulting file state.  The trace ends in `machineReset`
exactly on the success path (line 263); on every failure path the
function returns to `sub_cb`. -/
def perform_ota_update (mid : String) (env : OtaEnv) (url : String) (fs : FS) :
    List Event × FS :=
  let startEv := Event.pub (MQTT_TOPIC_PUB mid) (.otaStarting url) env.startPubOk
  match env.download with
  | .ok c =>
    -- response.status_code == 200: write the body to the staging file.
    let fs1 : FS := { fs with staged := some c }
    if 0 < c.length then
      -- uos.stat(temp_script_path)[6] > 0: download_successful = True.
      -- Swap phase (lines 234-263).
      let rmOk := fs1.backup.isSome
      let fs2 : FS := { fs1 with backup := none }
      let rnOk := fs2.live.isSome
      let fs3 : FS := if rnOk then { fs2 with backup := fs2.live, live := none } else fs2
      if env.finalRenameRaises then
        ([startEv, .fwrite temp_script_path,
          .fremove old_script_path rmOk,
          .frename current_script_path old_script_path rnOk,
          .frename temp_script_path current_script_path false,
          .pub (MQTT_TOPIC_PUB mid) (.otaFinalizeFailed "rename failed") env.finalizePubOk],
         fs3)
      else
        ([startEv, .fwrite temp_script_path,
          .fremove old_script_path rmOk,
          .frename current_script_path old_script_path rnOk,
          .frename temp_script_path current_script_path true,
          .pub (MQTT_TOPIC_PUB mid) .otaSuccessRebooting env.successPubOk,
          .sleepTenths 20, .machineReset],
         { fs3 with live := some c, staged := none })
    else
      -- Empty body: delete the staged file, report download failure.
      ([startEv, .fwrite temp_script_path, .fremove temp_script_path true,
        .pub (MQTT_TOPIC_PUB mid) .otaDownloadFailed env.downloadFailPubOk],
       { fs1 with staged := none })
  | .badStatus _ =>
    -- Non-200 status: nothing was written; report download failure.
    ([startEv, .pub (MQTT_TOPIC_PUB mid) .otaDownloadFailed env.downloadFailPubOk], fs)
  | .netError _ =>
    -- urequests.get raised: best-effort cleanup of any stale staging file.
    ([startEv, .fremove temp_script_path fs.staged.isSome,
      .pub (MQTT_TOPIC_PUB mid) .otaDownloadFailed env.downloadFailPubOk],
     { fs with staged := none })

/-- `sub_cb(topic, msg)` (main.py lines 281-408): the command dispatcher.
Returns the event trace and the resulting file state. -/
def sub_cb (mid : String) (env : Env) (topic : String) (msg : InMsg) (fs : FS) :
    List Event × FS :=
  if topic = MQTT_TOPIC_SUB mid then
    match msg with
    | .badJson e =>
      ([.pub (MQTT_TOPIC_PUB mid) (.payloadError e) env.errPubOk], fs)
    | .nonObject e =>
      ([.pub (MQTT_TOPIC_PUB mid) (.processingError e) env.errPubOk], fs)
    | .payload p =>
      if p.action = some "reset" then
        -- lines 293-303: best-effort "resetting" status, flush pause, reboot.
        (Event.pub (MQTT_TOPIC_PUB mid) .resetting env.resetPubOk ::
          (if env.resetPubOk then [Event.sleepTenths 10] else []) ++ [Event.machineReset],
         fs)
      else if p.action = some "update" then
        match p.url with
        | some u => perform_ota_update mid env.ota u fs
        | none =>
          ([.pub (MQTT_TOPIC_PUB mid) (.otaError "missing_url") env.errPubOk], fs)
      else
        -- Pulse branch (lines 324-388): the default when action is absent
        -- or unrecognized.  int(payload_data.get('pulses', 0)) runs first;
        -- a ValueError there is caught at line 390.
        if p.pulsesValid = false then
          ([.pub (MQTT_TOPIC_PUB mid) (.payloadError "invalid literal for pulses") env.errPubOk],
           fs)
        else
          match p.qrcode_id with
          | none =>
            -- line 331: raise ValueError, caught at line 390.
            ([.pub (MQTT_TOPIC_PUB mid)
                (.payloadError "Missing qrcode_id in payload for pulse action") env.errPubOk],
             fs)
          | some q =>
            let n := p.pulses
            let r := if 0 < n then runPulses env.pulseFault n.toNat else ([], true)
            let action_status := if r.2 then "success" else "failure"
            let error_detail :=
              if 0 < n then (if r.2 then "" else "Error during pulse generation")
              else "No pulses requested"
            let pulses_generated : Int := if action_status = "success" then n else 0
            -- line 359: `if qrcode_id:` — Python truthiness, so the empty
            -- string skips the confirm publish.
            let confirmEvs :=
              if q = "" then []
              else [Event.pub (MQTT_TOPIC_CONFIRM mid) (.confirmMsg q action_status)
                      env.confirmPubOk]
            (r.1 ++ confirmEvs ++
              [.pub (MQTT_TOPIC_PUB mid)
                 (.deviceStatus action_status (some q)
                    (if q = "" then none else some n) pulses_generated
                    (if action_status = "failure" then error_detail else ""))
                 env.statusPubOk],
             fs)
  else
    -- line 407: unexpected topic — only a warning log, no effect.
    ([], fs)

/-- Inputs of one `publish_health_status(client)` call (main.py lines
137-179): the sample time, the vitals sampled, whether the data-prep
`try` block succeeds, and whether `client.publish` succeeds. -/
structure HealthCall where
  now : Nat
  memFree : Nat
  memAlloc : Nat
  prepOk : Bool
  pubOk : Bool

/-- `publish_health_status` acting on `last_health_check`.  Returns the
event trace and the new value of `last_health_check`. -/
def publish_health_status (mid : String) (c : HealthCall) (last : Nat) :
    List Event × Nat :=
  if HEALTH_CHECK_INTERVAL ≤ c.now - last then
    if c.prepOk then
      if c.pubOk then
        ([.pub (MQTT_TOPIC_HEALTH mid) (.health c.now c.memFree c.memAlloc) true], c.now)
      else
        ([.pub (MQTT_TOPIC_HEALTH mid) (.health c.now c.memFree c.memAlloc) false], last)
    else
      ([], last)
  else
    ([], last)

/-- A sequence of heartbeat calls threading `last_health_check`. -/
def runHealth (mid : String) (calls : List HealthCall) (last : Nat) :
    List Event × Nat :=
  match calls with
  | [] => ([], last)
  | c :: cs =>
    let r := publish_health_status mid c last
    let rs := runHealth mid cs r.2
    (r.1 ++ rs.1, rs.2)

/-- How the body of one `while True` iteration of `main` ended (main.py
lines 480-507): no escaping exception, an `OSError` (transport error), or
any other exception escaping command handling. -/
inductive TickErr
  | ok
  | osError (err : String)
  | otherError (err : String)

/-- What the supervisor does after a tick: run the next tick, or reboot
the device (terminating the process). -/
inductive LoopAction
  | continueLoop
  | rebootDevice
  deriving DecidableEq, Repr

/-- One iteration of the `main` loop (main.py lines 480-507), given how
the tick body ended and whether the reconnect attempt succeeds. -/
def main_loop_tick (err : TickErr) (reconnectOk : Bool) : List Event × LoopAction :=
  match err with
  | .ok => ([.sleepTenths 1], .continueLoop)
  | .osError _ =>
    -- lines 493-503: wait 5s, reconnect + resubscribe; on failure wait 10s.
    if reconnectOk then
      ([.sleepTenths 50, .connectAttempt true, .subscribeAttempt true], .continueLoop)
    else
      ([.sleepTenths 50, .connectAttempt false, .sleepTenths 100], .continueLoop)
  | .otherError _ =>
    -- lines 504-507: wait 10s then machine.reset().
    ([.sleepTenths 100, .machineReset], .rebootDevice)

/-- The payloads of the publish attempts a trace makes on topic `t`, in
order. -/
def pubsTo (t : String) : List Event → List OutMsg
  | [] => []
  | .pub t' m _ :: es => if t' = t then m :: pubsTo t es else pubsTo t es
  | _ :: es => pubsTo t es

/-- Number of occurrences of event `a` in a trace. -/
def countEvent (a : Event) : List Event → Nat
  | [] => 0
  | e :: es => (if e = a then 1 else 0) + countEvent a es

/-- Number of `frename` events (of any arguments) in a trace. -/
def countRenames : List Event → Nat
  | [] => 0
  | .frename _ _ _ :: es => countRenames es + 1
  | _ :: es => countRenames es

/-- A fault-free OTA environment for concrete runs. -/
def otaEnvOk : OtaEnv :=
  { download := .ok "new code", startPubOk := true, successPubOk := true,
    downloadFailPubOk := true, finalizePubOk := true, finalRenameRaises := false }

/-- A fault-free dispatcher environment for concrete runs. -/
def envAllOk : Env :=
  { resetPubOk := true, errPubOk := true, pulseFault := fun _ => none,
    confirmPubOk := true, statusPubOk := true, ota := otaEnvOk }

/-- A file state with a live script and no backup or staging file. -/
def fs0 : FS := { live := some "old code", backup := none, staged := none }

/-- A well-formed pulse command: `{"qrcode_id":"Q1","pulses":3}`. -/
def pulsePayload : Payload :=
  { action := none, url := none, qrcode_id := some "Q1", pulsesValid := true, pulses := 3 }

/-- A pulse command missing `qrcode_id`: `{"pulses":2}`. -/
def noQrPayload : Payload :=
  { action := none, url := none, qrcode_id := none, pulsesValid := true, pulses := 2 }

/-- A pulse command whose `qrcode_id` is the empty string:
`{"qrcode_id":"","pulses":1}`. -/
def emptyQrPayload : Payload :=
  { action := none, url := none, qrcode_id := some "", pulsesValid := true, pulses := 1 }

/-- `{"qrcode_id":"","pulses":0}`. -/
def emptyQrZeroPayload : Payload :=
  { action := none, url := none, qrcode_id := some "", pulsesValid := true, pulses := 0 }

/-- `{"qrcode_id":"Q1","pulses":0}`. -/
def zeroPulsePayload : Payload :=
  { action := none, url := none, qrcode_id := some "Q1", pulsesValid := true, pulses := 0 }

/-- `{"action":"reset"}`. -/
def resetPayload : Payload :=
  { action := some "reset", url := none, qrcode_id := none, pulsesValid := true, pulses := 0 }

theorem topic_pub_ne_confirm (mid : String) :
    MQTT_TOPIC_PUB mid ≠ MQTT_TOPIC_CONFIRM mid := by
  intro h
  have h2 := congrArg String.length h
  simp [MQTT_TOPIC_PUB, MQTT_TOPIC_CONFIRM, String.length_append] at h2
  exact (by decide : ¬("/status".length = "/confirm".length)) h2

theorem topic_confirm_ne_pub (mid : String) :
    MQTT_TOPIC_CONFIRM mid ≠ MQTT_TOPIC_PUB mid :=
  fun h => topic_pub_ne_confirm mid h.symm

theorem pubsTo_append (t : String) (a b : List Event) :
    pubsTo t (a ++ b) = pubsTo t a ++ pubsTo t b := by
  induction a with
  | nil => simp [pubsTo]
  | cons e es ih =>
    cases e with
    | pub t' m ok =>
      by_cases h : t' = t <;> simp [pubsTo, h, ih]
    | _ => simpa [pubsTo] using ih

theorem countEvent_append (a : Event) (l r : List Event) :
    countEvent a (l ++ r) = countEvent a l + countEvent a r := by
  induction l with
  | nil => simp [countEvent]
  | cons e es ih => simp [countEvent, ih]; omega

/-- The pulse loop never publishes. -/
theorem pubsTo_runPulsesAux (t : String) (fault : Nat → Option PulseFault) :
    ∀ k i, pubsTo t (runPulsesAux fault i k).1 = [] := by
  intro k
  induction k with
  | zero => intro i; simp [runPulsesAux, pubsTo]
  | succ k ih =>
    intro i
    cases hf : fault i with
    | none => simp [runPulsesAux, hf, pubsTo, ih]
    | some f => cases f <;> simp [runPulsesAux, hf, pubsTo]

/-- The pulse loop completes iff no cycle in range is faulted. -/
theorem runPulsesAux_ok_iff (fault : Nat → Option PulseFault) :
    ∀ k i, (runPulsesAux fault i k).2 = true ↔ ∀ j, j < k → fault (i + j) = none := by
  intro k
  induction k with
  | zero => intro i; simp [runPulsesAux]
  | succ k ih =>
    intro i
    cases hf : fault i with
    | none =>
      simp only [runPulsesAux, hf]
      constructor
      · intro h j hj
        cases j with
        | zero => simpa using hf
        | succ j =>
          have hjk : j < k := by omega
          have := (ih (i + 1)).mp h j hjk
          have harr : i + 1 + j = i + (j + 1) := by omega
          rwa [harr] at this
      · intro h
        apply (ih (i + 1)).mpr
        intro j hj
        have := h (j + 1) (by omega)
        have harr : i + (j + 1) = i + 1 + j := by omega
        rwa [harr] at this
    | some f =>
      have hrun : (runPulsesAux fault i (k + 1)).2 = false := by
        cases f <;> simp [runPulsesAux, hf]
      rw [hrun]
      simp only [Bool.false_eq_true, false_iff, not_forall]
      refine ⟨0, by omega, ?_⟩
      simp [hf]

/-- A completed pulse loop drives the pin on exactly once per cycle. -/
theorem runPulsesAux_count_on (fault : Nat → Option PulseFault) :
    ∀ k i, (∀ j, j < k → fault (i + j) = none) →
      countEvent .pinOn (runPulsesAux fault i k).1 = k ∧
      countEvent .pinOff (runPulsesAux fault i k).1 = k := by
  intro k
  induction k with
  | zero => intro i _; simp [runPulsesAux, countEvent]
  | succ k ih =>
    intro i h
    have hf : fault i = none := by simpa using h 0 (by omega)
    have hrest : ∀ j, j < k → fault (i + 1 + j) = none := by
      intro j hj
      have := h (j + 1) (by omega)
      have harr : i + (j + 1) = i + 1 + j := by omega
      rwa [harr] at this
    have := ih (i + 1) hrest
    simp [runPulsesAux, hf, countEvent, this.1, this.2]
    omega

/-- C9: for every inbound message delivered on a topic different from the
command-in topic, `sub_cb` publishes nothing on any topic, performs no pin
actuation and no file operation, and leaves all mutable state unchanged;
it only logs a warning. -/
theorem c9_other_topic_no_effect (mid : String) (env : Env) (topic : String)
    (msg : InMsg) (fs : FS) (h : topic ≠ MQTT_TOPIC_SUB mid) :
    sub_cb mid env topic msg fs = ([], fs) := by
  simp [sub_cb, h]

theorem c9_witness :
    sub_cb "M001" envAllOk "other/topic" (.payload pulsePayload) fs0 = ([], fs0) :=
  c9_other_topic_no_effect "M001" envAllOk "other/topic" (.payload pulsePayload) fs0
    (by decide)

/-- C7: for every inbound command with `action == "reset"`, the handler
attempts exactly one status-out publish of `{"status":"resetting"}`
(failure of that publish is logged, not fatal), waits briefly when the
publish succeeded, then performs a hardware reboot; the trace ends in the
reboot, so no further commands are processed. -/
theorem c7_reset_terminal (mid : String) (env : Env) (p : Payload) (fs : FS)
    (h : p.action = some "reset") :
    pubsTo (MQTT_TOPIC_PUB mid) (sub_cb mid env (MQTT_TOPIC_SUB mid) (.payload p) fs).1
        = [.resetting] ∧
    pubsTo (MQTT_TOPIC_CONFIRM mid) (sub_cb mid env (MQTT_TOPIC_SUB mid) (.payload p) fs).1
        = [] ∧
    (sub_cb mid env (MQTT_TOPIC_SUB mid) (.payload p) fs).1.getLast? = some .machineReset ∧
    (sub_cb mid env (MQTT_TOPIC_SUB mid) (.payload p) fs).2 = fs ∧
    (env.resetPubOk = true →
      (sub_cb mid env (MQTT_TOPIC_SUB mid) (.payload p) fs).1
        = [.pub (MQTT_TOPIC_PUB mid) .resetting true, .sleepTenths 10, .machineReset]) := by
  cases hb : env.resetPubOk <;>
    simp [sub_cb, h, hb, pubsTo, topic_pub_ne_confirm mid]

theorem c7_witness :
    pubsTo (MQTT_TOPIC_PUB "M001")
        (sub_cb "M001" envAllOk (MQTT_TOPIC_SUB "M001") (.payload resetPayload) fs0).1
      = [.resetting] ∧
    pubsTo (MQTT_TOPIC_CONFIRM "M001")
        (sub_cb "M001" envAllOk (MQTT_TOPIC_SUB "M001") (.payload resetPayload) fs0).1
      = [] ∧
    (sub_cb "M001" envAllOk (MQTT_TOPIC_SUB "M001") (.payload resetPayload) fs0).1.getLast?
      = some .machineReset ∧
    (sub_cb "M001" envAllOk (MQTT_TOPIC_SUB "M001") (.payload resetPayload) fs0).2 = fs0 ∧
    (envAllOk.resetPubOk = true →
      (sub_cb "M001" envAllOk (MQTT_TOPIC_SUB "M001") (.payload resetPayload) fs0).1
        = [.pub (MQTT_TOPIC_PUB "M001") .resetting true, .sleepTenths 10, .machineReset]) :=
  c7_reset_terminal "M001" envAllOk resetPayload fs0 rfl

/-- C6: an inbound command-in message that fails JSON decoding, or decodes
to a pulse-handled envelope with `qrcode_id` absent, produces exactly one
status-out `payload_error` publish, nothing on confirm-out, no pin
actuation and no state change. -/
theorem c6_invalid_payload_error (mid : String) (env : Env) (fs : FS) :
    (∀ e, (sub_cb mid env (MQTT_TOPIC_SUB mid) (.badJson e) fs).1
          = [.pub (MQTT_TOPIC_PUB mid) (.payloadError e) env.errPubOk] ∧
      pubsTo (MQTT_TOPIC_CONFIRM mid) (sub_cb mid env (MQTT_TOPIC_SUB mid) (.badJson e) fs).1
          = [] ∧
      countEvent .pinOn (sub_cb mid env (MQTT_TOPIC_SUB mid) (.badJson e) fs).1 = 0 ∧
      (sub_cb mid env (MQTT_TOPIC_SUB mid) (.badJson e) fs).2 = fs) ∧
    (∀ p, p.action ≠ some "reset" → p.action ≠ some "update" → p.qrcode_id = none →
      ∃ e, (sub_cb mid env (MQTT_TOPIC_SUB mid) (.payload p) fs).1
            = [.pub (MQTT_TOPIC_PUB mid) (.payloadError e) env.errPubOk] ∧
        pubsTo (MQTT_TOPIC_CONFIRM mid)
            (sub_cb mid env (MQTT_TOPIC_SUB mid) (.payload p) fs).1 = [] ∧
        countEvent .pinOn (sub_cb mid env (MQTT_TOPIC_SUB mid) (.payload p) fs).1 = 0 ∧
        (sub_cb mid env (MQTT_TOPIC_SUB mid) (.payload p) fs).2 = fs) := by
  constructor
  · intro e
    simp [sub_cb, pubsTo, countEvent, topic_pub_ne_confirm mid]
  · intro p h1 h2 hq
    by_cases hv : p.pulsesValid = true
    · exact ⟨"Missing qrcode_id in payload for pulse action",
        by simp [sub_cb, h1, h2, hq, hv, pubsTo, countEvent, topic_pub_ne_confirm mid]⟩
    · have hv' : p.pulsesValid = false := by
        cases hb : p.pulsesValid
        · rfl
        · exact absurd hb hv
      exact ⟨"invalid literal for pulses",
        by simp [sub_cb, h1, h2, hq, hv', pubsTo, countEvent, topic_pub_ne_confirm mid]⟩

theorem c6_witness :
    ∃ e, (sub_cb "M001" envAllOk (MQTT_TOPIC_SUB "M001") (.payload noQrPayload) fs0).1
          = [.pub (MQTT_TOPIC_PUB "M001") (.payloadError e) envAllOk.errPubOk] ∧
      pubsTo (MQTT_TOPIC_CONFIRM "M001")
          (sub_cb "M001" envAllOk (MQTT_TOPIC_SUB "M001") (.payload noQrPayload) fs0).1 = [] ∧
      countEvent .pinOn
          (sub_cb "M001" envAllOk (MQTT_TOPIC_SUB "M001") (.payload noQrPayload) fs0).1 = 0 ∧
      (sub_cb "M001" envAllOk (MQTT_TOPIC_SUB "M001") (.payload noQrPayload) fs0).2 = fs0 :=
  (c6_invalid_payload_error "M001" envAllOk fs0).2 noQrPayload (by decide) (by decide) rfl

/-- C2: on an update whose download stages a non-empty artifact and whose
renames succeed, `perform_ota_update` publishes `ota_starting` first
(before the download write), rotates backups in order — delete the old
backup ignoring not-found, rename live to backup ignoring not-found,
rename staged to live — publishes `ota_success_rebooting` after the swap,
leaves the former live content in the backup slot and the new content in
the live slot, and invokes the hardware reboot. -/
theorem c2_ota_success_swap (mid : String) (env : OtaEnv) (url c : String) (fs : FS)
    (hd : env.download = .ok c) (hc : 0 < c.length) (hr : env.finalRenameRaises = false) :
    perform_ota_update mid env url fs =
      ([.pub (MQTT_TOPIC_PUB mid) (.otaStarting url) env.startPubOk,
        .fwrite temp_script_path,
        .fremove old_script_path fs.backup.isSome,
        .frename current_script_path old_script_path fs.live.isSome,
        .frename temp_script_path current_script_path true,
        .pub (MQTT_TOPIC_PUB mid) .otaSuccessRebooting env.successPubOk,
        .sleepTenths 20, .machineReset],
       { live := some c, backup := fs.live, staged := none }) := by
  cases fs with
  | mk lv bk st => cases lv <;> simp [perform_ota_update, hd, hr, hc]

theorem c2_witness :
    perform_ota_update "M001" otaEnvOk "http://x/y" fs0 =
      ([.pub (MQTT_TOPIC_PUB "M001") (.otaStarting "http://x/y") true,
        .fwrite temp_script_path,
        .fremove old_script_path false,
        .frename current_script_path old_script_path true,
        .frename temp_script_path current_script_path true,
        .pub (MQTT_TOPIC_PUB "M001") .otaSuccessRebooting true,
        .sleepTenths 20, .machineReset],
       { live := some "new code", backup := some "old code", staged := none }) :=
  c2_ota_success_swap "M001" otaEnvOk "http://x/y" "new code" fs0 rfl (by decide) rfl

/-- C3: an update whose fetched body is empty deletes the staged artifact,
performs no rename, never reboots, and publishes `ota_download_failed`. -/
theorem c3_empty_download_no_swap (mid : String) (env : OtaEnv) (url c : String) (fs : FS)
    (hd : env.download = .ok c) (hc : c.length = 0) :
    perform_ota_update mid env url fs =
      ([.pub (MQTT_TOPIC_PUB mid) (.otaStarting url) env.startPubOk,
        .fwrite temp_script_path, .fremove temp_script_path true,
        .pub (MQTT_TOPIC_PUB mid) .otaDownloadFailed env.downloadFailPubOk],
       { live := fs.live, backup := fs.backup, staged := none }) ∧
    countRenames (perform_ota_update mid env url fs).1 = 0 ∧
    countEvent .machineReset (perform_ota_update mid env url fs).1 = 0 := by
  have hc' : ¬ 0 < c.length := by omega
  cases fs with
  | mk lv bk st => simp [perform_ota_update, hd, hc', countRenames, countEvent]

theorem c3_witness :
    perform_ota_update "M001"
        { otaEnvOk with download := .ok "" } "http://x/y" fs0 =
      ([.pub (MQTT_TOPIC_PUB "M001") (.otaStarting "http://x/y") true,
        .fwrite temp_script_path, .fremove temp_script_path true,
        .pub (MQTT_TOPIC_PUB "M001") .otaDownloadFailed true],
       { live := some "old code", backup := none, staged := none }) ∧
    countRenames (perform_ota_update "M001"
        { otaEnvOk with download := .ok "" } "http://x/y" fs0).1 = 0 ∧
    countEvent .machineReset (perform_ota_update "M001"
        { otaEnvOk with download := .ok "" } "http://x/y" fs0).1 = 0 :=
  c3_empty_download_no_swap "M001" { otaEnvOk with download := .ok "" }
    "http://x/y" "" fs0 rfl rfl

/-- C10: once the staged artifact has been renamed into the live slot, a
failing `ota_success_rebooting` publish does not abort the update: the
hardware reboot is still invoked and the new content stays live. -/
theorem c10_pub_failure_still_reboots (mid : String) (env : OtaEnv) (url c : String)
    (fs : FS) (hd : env.download = .ok c) (hc : 0 < c.length)
    (hr : env.finalRenameRaises = false) (hp : env.successPubOk = false) :
    Event.frename temp_script_path current_script_path true
        ∈ (perform_ota_update mid env url fs).1 ∧
    Event.pub (MQTT_TOPIC_PUB mid) .otaSuccessRebooting false
        ∈ (perform_ota_update mid env url fs).1 ∧
    (perform_ota_update mid env url fs).1.getLast? = some .machineReset ∧
    (perform_ota_update mid env url fs).2.live = some c := by
  cases fs with
  | mk lv bk st => cases lv <;> simp [perform_ota_update, hd, hr, hc, hp]

theorem c10_witness :
    Event.frename temp_script_path current_script_path true
        ∈ (perform_ota_update "M001" { otaEnvOk with successPubOk := false }
            "http://x/y" fs0).1 ∧
    Event.pub (MQTT_TOPIC_PUB "M001") .otaSuccessRebooting false
        ∈ (perform_ota_update "M001" { otaEnvOk with successPubOk := false }
            "http://x/y" fs0).1 ∧
    (perform_ota_update "M001" { otaEnvOk with successPubOk := false }
        "http://x/y" fs0).1.getLast? = some .machineReset ∧
    (perform_ota_update "M001" { otaEnvOk with successPubOk := false }
        "http://x/y" fs0).2.live = some "new code" :=
  c10_pub_failure_still_reboots "M001" { otaEnvOk with successPubOk := false }
    "http://x/y" "new code" fs0 rfl (by decide) rfl rfl

/-- C5: `publish_health_status` attempts a publish iff the interval (60)
has elapsed since the last emission; the timestamp advances to `now`
exactly on a successful publish and is left unchanged on any failure (so
the next call retries); hence within one interval of a successful
emission at most one publish occurs, and a due call emits exactly one. -/
theorem c5_heartbeat (mid : String) (last : Nat) (c c2 : HealthCall) :
    (c.prepOk = true →
      (((publish_health_status mid c last).1.length = 1) ↔
        HEALTH_CHECK_INTERVAL ≤ c.now - last)) ∧
    (HEALTH_CHECK_INTERVAL ≤ c.now - last → c.prepOk = true → c.pubOk = true →
      (publish_health_status mid c last).2 = c.now) ∧
    (¬ (HEALTH_CHECK_INTERVAL ≤ c.now - last ∧ c.prepOk = true ∧ c.pubOk = true) →
      (publish_health_status mid c last).2 = last) ∧
    (HEALTH_CHECK_INTERVAL ≤ c.now - last → c.prepOk = true → c.pubOk = true →
      c2.now - c.now < HEALTH_CHECK_INTERVAL →
      (runHealth mid [c, c2] last).1.length = 1) := by
  refine ⟨?_, ?_, ?_, ?_⟩
  · intro hprep
    by_cases hdue : HEALTH_CHECK_INTERVAL ≤ c.now - last
    · cases hpub : c.pubOk <;> simp [publish_health_status, hdue, hprep, hpub]
    · simp [publish_health_status, hdue]
  · intro hdue hprep hpub
    simp [publish_health_status, hdue, hprep, hpub]
  · intro hfail
    by_cases hdue : HEALTH_CHECK_INTERVAL ≤ c.now - last
    · cases hprep : c.prepOk
      · simp [publish_health_status, hdue, hprep]
      · cases hpub : c.pubOk
        · simp [publish_health_status, hdue, hprep, hpub]
        · exact absurd ⟨hdue, hprep, hpub⟩ hfail
    · simp [publish_health_status, hdue]
  · intro hdue hprep hpub hlt
    have hnotdue : ¬ HEALTH_CHECK_INTERVAL ≤ c2.now - c.now := by omega
    simp [runHealth, publish_health_status, hdue, hprep, hpub, hnotdue]

theorem c5_witness :
    (HEALTH_CHECK_INTERVAL ≤ (60 : Nat) - 0 → true = true → true = true →
      (119 : Nat) - 60 < HEALTH_CHECK_INTERVAL →
      (runHealth "M001" [⟨60, 1000, 2000, true, true⟩, ⟨119, 1000, 2000, true, true⟩] 0).1.length
        = 1) ∧
    (runHealth "M001" [⟨60, 1000, 2000, true, true⟩, ⟨119, 1000, 2000, true, true⟩] 0).1.length
        = 1 :=
  ⟨(c5_heartbeat "M001" 0 ⟨60, 1000, 2000, true, true⟩ ⟨119, 1000, 2000, true, true⟩).2.2.2,
   (c5_heartbeat "M001" 0 ⟨60, 1000, 2000, true, true⟩ ⟨119, 1000, 2000, true, true⟩).2.2.2
     (by decide) rfl rfl (by decide)⟩

/-- C4 counterexample: a non-transport error escaping command handling in
the main loop does not let the loop continue — the supervisor reboots the
device (main.py line 507), terminating the process. -/
theorem c4_counterexample :
    (main_loop_tick (.otherError "boom") true).2 = .rebootDevice ∧
    (main_loop_tick (.otherError "boom") true).2 ≠ .continueLoop ∧
    Event.machineReset ∈ (main_loop_tick (.otherError "boom") true).1 := by
  decide

/-- C4 (amended): a transport (`OSError`) failure keeps the supervisor
loop running via the reconnect path and never reboots, while any other
uncaught error from command handling makes the supervisor wait and then
reboot the device — an intentional process termination, like the reboot
of a reset command or a successful self-update. -/
theorem c4_tick_outcomes (e : String) (r : Bool) :
    (main_loop_tick .ok r).2 = .continueLoop ∧
    (main_loop_tick (.osError e) r).2 = .continueLoop ∧
    countEvent .machineReset (main_loop_tick (.osError e) r).1 = 0 ∧
    (main_loop_tick (.otherError e) r).2 = .rebootDevice ∧
    (main_loop_tick (.otherError e) r).1.getLast? = some .machineReset := by
  cases r <;> simp [main_loop_tick, countEvent]

/-- C1 counterexample: `{"qrcode_id":"","pulses":1}` has a non-null
`qrcode_id` and `pulses = 1 > 0`, the actuation runs (one pin-on cycle),
yet no confirm-out message is published: line 359's `if qrcode_id:` is
false for the empty string. -/
theorem c1_counterexample :
    countEvent .pinOn
        (sub_cb "M001" envAllOk (MQTT_TOPIC_SUB "M001") (.payload emptyQrPayload) fs0).1
      = 1 ∧
    pubsTo (MQTT_TOPIC_CONFIRM "M001")
        (sub_cb "M001" envAllOk (MQTT_TOPIC_SUB "M001") (.payload emptyQrPayload) fs0).1
      = [] := by
  decide

/-- C1 (amended): for every command-in message decoding to an object with
a non-null and non-empty `qrcode_id`, no recognized action, and an integer
`pulses = N > 0`, the dispatcher runs the actuation sequence with count
`N` and publishes exactly one confirm-out message `{qrcode_id, status}`,
with status "success" iff all `N` pin on/off cycles complete without
raising, and "failure" if any cycle raises.  (With a non-null but empty
`qrcode_id` the actuation runs but no confirm-out message is published.) -/
theorem c1_pulse_confirm (mid : String) (env : Env) (p : Payload) (fs : FS) (N : Nat)
    (q : String)
    (hr : p.action ≠ some "reset") (hu : p.action ≠ some "update")
    (hv : p.pulsesValid = true) (hq : p.qrcode_id = some q) (hne : q ≠ "")
    (hp : p.pulses = (N : Int)) (hN : 0 < N) :
    pubsTo (MQTT_TOPIC_CONFIRM mid) (sub_cb mid env (MQTT_TOPIC_SUB mid) (.payload p) fs).1
      = [.confirmMsg q
          (if ∀ j, j < N → env.pulseFault j = none then "success" else "failure")] ∧
    ((∀ j, j < N → env.pulseFault j = none) →
      countEvent .pinOn (sub_cb mid env (MQTT_TOPIC_SUB mid) (.payload p) fs).1 = N ∧
      countEvent .pinOff (sub_cb mid env (MQTT_TOPIC_SUB mid) (.payload p) fs).1 = N) ∧
    (sub_cb mid env (MQTT_TOPIC_SUB mid) (.payload p) fs).2 = fs := by
  have hpos : (0 : Int) < p.pulses := by rw [hp]; exact_mod_cast hN
  have hok : (runPulses env.pulseFault N).2 = true ↔
      (∀ j, j < N → env.pulseFault j = none) := by
    have h := runPulsesAux_ok_iff env.pulseFault N 0
    simpa [runPulses] using h
  by_cases hall : ∀ j, j < N → env.pulseFault j = none
  · have h2 : (runPulsesAux env.pulseFault 0 N).2 = true := hok.mpr hall
    have hcnt := runPulsesAux_count_on env.pulseFault N 0
      (by intro j hj; simpa using hall j hj)
    rw [if_pos hall]
    refine ⟨?_, fun _ => ⟨?_, ?_⟩, ?_⟩ <;>
      simp [sub_cb, hr, hu, hv, hq, hne, hp, hpos, hN, runPulses, h2,
        pubsTo_append, pubsTo_runPulsesAux, countEvent_append, pubsTo, countEvent,
        topic_pub_ne_confirm mid, hcnt.1, hcnt.2]
  · have h2 : (runPulsesAux env.pulseFault 0 N).2 = false := by
      cases hb : (runPulsesAux env.pulseFault 0 N).2
      · rfl
      · exact absurd (hok.mp hb) hall
    rw [if_neg hall]
    refine ⟨?_, fun h => absurd h hall, ?_⟩ <;>
      simp [sub_cb, hr, hu, hv, hq, hne, hp, hpos, hN, runPulses, h2,
        pubsTo_append, pubsTo_runPulsesAux, pubsTo, topic_pub_ne_confirm mid]

theorem c1_witness :
    pubsTo (MQTT_TOPIC_CONFIRM "M001")
        (sub_cb "M001" envAllOk (MQTT_TOPIC_SUB "M001") (.payload pulsePayload) fs0).1
      = [.confirmMsg "Q1" "success"] ∧
    countEvent .pinOn
        (sub_cb "M001" envAllOk (MQTT_TOPIC_SUB "M001") (.payload pulsePayload) fs0).1
      = 3 ∧
    countEvent .pinOff
        (sub_cb "M001" envAllOk (MQTT_TOPIC_SUB "M001") (.payload pulsePayload) fs0).1
      = 3 ∧
    (sub_cb "M001" envAllOk (MQTT_TOPIC_SUB "M001") (.payload pulsePayload) fs0).2 = fs0 := by
  have h := c1_pulse_confirm "M001" envAllOk pulsePayload fs0 3 "Q1"
    (by decide) (by decide) rfl rfl (by decide) rfl (by decide)
  have hall : ∀ j, j < 3 → envAllOk.pulseFault j = none := fun _ _ => rfl
  have h1 := h.1
  rw [if_pos hall] at h1
  exact ⟨h1, (h.2.1 hall).1, (h.2.1 hall).2, h.2.2⟩

/-- C8 counterexample: `{"qrcode_id":"","pulses":0}` has a non-null
`qrcode_id` and zero pulses, yet no confirm-out message is published at
all (line 359's `if qrcode_id:` is false for the empty string), so the
promised single "success" confirmation never appears. -/
theorem c8_counterexample :
    pubsTo (MQTT_TOPIC_CONFIRM "M001")
        (sub_cb "M001" envAllOk (MQTT_TOPIC_SUB "M001") (.payload emptyQrZeroPayload) fs0).1
      = [] ∧
    countEvent .pinOn
        (sub_cb "M001" envAllOk (MQTT_TOPIC_SUB "M001") (.payload emptyQrZeroPayload) fs0).1
      = 0 := by
  decide

/-- C8 (amended): a pulse-handled command with a non-null, non-empty
`qrcode_id` and requested pulses ≤ 0 performs no pin actuation and
publishes exactly one confirm-out message with status "success".  (With a
non-null but empty `qrcode_id` no confirm-out message is published.) -/
theorem c8_zero_pulses_success (mid : String) (env : Env) (p : Payload) (fs : FS)
    (q : String)
    (hr : p.action ≠ some "reset") (hu : p.action ≠ some "update")
    (hv : p.pulsesValid = true) (hq : p.qrcode_id = some q) (hne : q ≠ "")
    (hp : p.pulses ≤ 0) :
    pubsTo (MQTT_TOPIC_CONFIRM mid) (sub_cb mid env (MQTT_TOPIC_SUB mid) (.payload p) fs).1
      = [.confirmMsg q "success"] ∧
    countEvent .pinOn (sub_cb mid env (MQTT_TOPIC_SUB mid) (.payload p) fs).1 = 0 ∧
    countEvent .pinOff (sub_cb mid env (MQTT_TOPIC_SUB mid) (.payload p) fs).1 = 0 ∧
    (sub_cb mid env (MQTT_TOPIC_SUB mid) (.payload p) fs).2 = fs := by
  have hpos : ¬ (0 : Int) < p.pulses := not_lt.mpr hp
  simp [sub_cb, hr, hu, hv, hq, hne, hpos, pubsTo, countEvent, topic_pub_ne_confirm mid]

theorem c8_witness :
    pubsTo (MQTT_TOPIC_CONFIRM "M001")
        (sub_cb "M001" envAllOk (MQTT_TOPIC_SUB "M001") (.payload zeroPulsePayload) fs0).1
      = [.confirmMsg "Q1" "success"] ∧
    countEvent .pinOn
        (sub_cb "M001" envAllOk (MQTT_TOPIC_SUB "M001") (.payload zeroPulsePayload) fs0).1
      = 0 ∧
    countEvent .pinOff
        (sub_cb "M001" envAllOk (MQTT_TOPIC_SUB "M001") (.payload zeroPulsePayload) fs0).1
      = 0 ∧
    (sub_cb "M001" envAllOk (MQTT_TOPIC_SUB "M001") (.payload zeroPulsePayload) fs0).2
      = fs0 :=
  c8_zero_pulses_success "M001" envAllOk zeroPulsePayload fs0 "Q1"
    (by decide) (by decide) rfl rfl (by decide) (by decide)

end QrEsp32
